import Mathlib

/-!
Verification of the pubmed-mcp server (src/index.js and the bundled
pubmed-search.js module) against its natural-language specification.

The JavaScript is shallowly embedded: the network is an explicit
environment of pure functions (search URL to identifier list, fetch URL
to parsed payload), JavaScript truthiness on optional strings and
numbers is modelled explicitly, and every gateway operation also returns
the ordered list of network calls it performs, so that claims about
"zero network calls" are statable.
-/

/-- A parsed XML child that is either a plain text node or an element
object whose optional text content sits under the xml2js underscore
key. -/
inductive XmlNode where
  | text (s : String)
  | node (u : Option String)
deriving DecidableEq

/-- JavaScript `o || d` on an optional string: absent and empty both
fall through to the default. -/
def jsOr (o : Option String) (d : String) : String :=
  match o with
  | none => d
  | some s => if s = "" then d else s

/-- JavaScript truthiness of an optional string. -/
def optTruthy (o : Option String) : Bool :=
  match o with
  | none => false
  | some s => !(s == "")

/-- JavaScript `n || d` on an optional number: absent and zero both
fall through to the default. -/
def jsOrInt (o : Option Int) (d : Int) : Int :=
  match o with
  | none => d
  | some n => if n = 0 then d else n

/-- Parsed `PubDate` element: optional Year, Month, Day children. -/
structure PubDateNode where
  year : Option String
  month : Option String
  day : Option String
deriving DecidableEq

/-- Parsed `Author` element: optional LastName and ForeName children. -/
structure AuthorNode where
  lastName : Option String
  foreName : Option String
deriving DecidableEq

/-- Parsed `ArticleId` element: the optional IdType attribute and the
text content. -/
structure ArticleIdNode where
  idType : Option String
  value : String
deriving DecidableEq

/-- Parsed `Article` element of a MedlineCitation; each leaf of the
optional chains navigated by the source is an optional field here. -/
structure ArticleNode where
  articleTitle : Option String
  journalTitle : Option String
  pubDate : Option PubDateNode
  authorList : Option (List AuthorNode)
  abstractTexts : Option (List XmlNode)
deriving DecidableEq

/-- Parsed `MedlineCitation` element. -/
structure MedlineCitationNode where
  article : Option ArticleNode
  meshDescriptors : Option (List (Option String))
  keywordList : Option (List XmlNode)
deriving DecidableEq

/-- Parsed `PubmedData` element. -/
structure PubmedDataNode where
  articleIds : Option (List ArticleIdNode)
deriving DecidableEq

/-- Parsed `PubmedArticle` element (the first entry of
PubmedArticleSet.PubmedArticle). -/
structure PubmedArticleNode where
  medlineCitation : Option MedlineCitationNode
  pubmedData : Option PubmedDataNode
deriving DecidableEq

/-- The normalized article record built by getPubMedMetadata. -/
structure ArticleRecord where
  pmid : String
  title : String
  authors : List String
  journal : String
  publication_date : String
  abstract : String
  doi : String
  pmcid : String
  keywords : List String
  mesh_terms : List String
  url : String
deriving DecidableEq

/-- One outbound HTTP request. -/
inductive NetCall where
  | get (url : String)
deriving DecidableEq

/-- The upstream E-utilities service, as a pure environment: `esearch`
maps a search URL to the parsed Id list (`none` models a network or
parse failure, or an absent IdList, all of which the source turns into
an empty identifier list); `efetch` maps a fetch URL to the parsed
first PubmedArticle (`none` models failure or an absent article, both
of which the source turns into a null record). -/
structure Env where
  esearch : String → Option (List XmlNode)
  efetch : String → Option PubmedArticleNode

/-- Hexadecimal digit character (uppercase, as produced by
encodeURIComponent). -/
def hexDigitChar (n : Nat) : Char :=
  if n < 10 then Char.ofNat (48 + n) else Char.ofNat (55 + n)

/-- Two-digit hexadecimal rendering of a byte. -/
def byteToHex (b : Nat) : String :=
  String.mk [hexDigitChar (b / 16), hexDigitChar (b % 16)]

/-- UTF-8 bytes of a Unicode scalar value. -/
def utf8Bytes (n : Nat) : List Nat :=
  if n < 128 then [n]
  else if n < 2048 then [192 + n / 64, 128 + n % 64]
  else if n < 65536 then [224 + n / 4096, 128 + (n / 64) % 64, 128 + n % 64]
  else [240 + n / 262144, 128 + (n / 4096) % 64, 128 + (n / 64) % 64, 128 + n % 64]

/-- Characters left unescaped by JavaScript encodeURIComponent:
letters, digits, and - _ . ! ~ * apostrophe ( ). -/
def isUriUnescaped (c : Char) : Bool :=
  let n := c.toNat
  (decide (65 ≤ n) && decide (n ≤ 90)) || (decide (97 ≤ n) && decide (n ≤ 122)) ||
  (decide (48 ≤ n) && decide (n ≤ 57)) ||
  (n == 45) || (n == 95) || (n == 46) || (n == 33) || (n == 126) ||
  (n == 42) || (n == 39) || (n == 40) || (n == 41)

/-- JavaScript encodeURIComponent: percent-encode the UTF-8 bytes of
every character outside the unescaped set. -/
def encodeURIComponent (s : String) : String :=
  String.join (s.data.map (fun c =>
    if isUriUnescaped c then String.mk [c]
    else String.join ((utf8Bytes c.toNat).map (fun b => "%" ++ byteToHex b))))

/-- generatePubMedSearchUrl from pubmed-search.js. -/
def generatePubMedSearchUrl (term : String) (numResults : Int) : String :=
  "https://eutils.ncbi.nlm.nih.gov/entrez/eutils/esearch.fcgi" ++
    "?db=pubmed&term=" ++ encodeURIComponent term ++
    "&retmax=" ++ toString numResults ++ "&retmode=xml"

/-- The efetch URL built inline by getPubMedMetadata. -/
def efetchUrl (pmid : String) : String :=
  "https://eutils.ncbi.nlm.nih.gov/entrez/eutils/efetch.fcgi?db=pubmed&id=" ++
    pmid ++ "&retmode=xml"

/-- The Id-list walk inside searchPubMed: plain strings are pushed as
they are, element objects contribute their text only when truthy. -/
def idListToPmids (ids : List XmlNode) : List String :=
  match ids with
  | [] => []
  | XmlNode.text s :: rest => s :: idListToPmids rest
  | XmlNode.node u :: rest =>
      if jsOr u "" ≠ "" then (u.getD "") :: idListToPmids rest
      else idListToPmids rest

/-- searchPubMed from pubmed-search.js: on failure, or when the Id list
is absent, the identifier list is empty. -/
def searchPubMed (env : Env) (searchUrl : String) : List String :=
  match env.esearch searchUrl with
  | none => []
  | some ids => idListToPmids ids

/-- JavaScript String.prototype.trim: drop whitespace from both ends. -/
def jsTrim (s : String) : String :=
  String.mk (((s.data.dropWhile Char.isWhitespace).reverse.dropWhile Char.isWhitespace).reverse)

/-- The author loop of getPubMedMetadata: an entry is pushed only when
the last name is truthy, formatted as the trimmed
`lastName ++ ", " ++ foreName`. -/
def extractAuthors (al : Option (List AuthorNode)) : List String :=
  match al with
  | none => []
  | some l =>
      l.foldl (fun acc a =>
        let lastName := jsOr a.lastName ""
        let foreName := jsOr a.foreName ""
        if lastName ≠ "" then acc ++ [jsTrim (lastName ++ ", " ++ foreName)]
        else acc) []

/-- The publication-date logic of getPubMedMetadata: the sentinel when
the PubDate element is absent or falsy, otherwise the dash-join of the
truthy components. -/
def extractPublicationDate (pd : Option PubDateNode) : String :=
  match pd with
  | none => "Unknown date"
  | some d =>
      let year := jsOr d.year ""
      let month := jsOr d.month ""
      let day := jsOr d.day ""
      String.intercalate "-" ([year, month, day].filter (fun s => s ≠ ""))

/-- The abstract assembly of getPubMedMetadata: each segment maps to
its string form (element objects via their truthy text, else empty)
and the segments are space-joined. -/
def extractAbstract (l : Option (List XmlNode)) : String :=
  match l with
  | none => ""
  | some texts =>
      String.intercalate " " (texts.map (fun t =>
        match t with
        | XmlNode.text s => s
        | XmlNode.node u => jsOr u ""))

/-- The identifier scan of getPubMedMetadata: first ArticleId whose
IdType attribute equals the wanted type, else the empty string. -/
def findFirstIdOfType (ids : Option (List ArticleIdNode)) (ty : String) : String :=
  match ids with
  | none => ""
  | some l =>
      match l.find? (fun entry => entry.idType == some ty) with
      | none => ""
      | some found => found.value

/-- The MeSH loop of getPubMedMetadata: push each truthy descriptor
name. -/
def extractMeshTerms (l : Option (List (Option String))) : List String :=
  match l with
  | none => []
  | some heads =>
      heads.foldl (fun acc d =>
        if jsOr d "" ≠ "" then acc ++ [d.getD ""] else acc) []

/-- The keyword loop of getPubMedMetadata: plain strings are pushed as
they are, element objects contribute their text only when truthy. -/
def extractKeywords (l : Option (List XmlNode)) : List String :=
  match l with
  | none => []
  | some ks =>
      ks.foldl (fun acc k =>
        match k with
        | XmlNode.text s => acc ++ [s]
        | XmlNode.node u =>
            if jsOr u "" ≠ "" then acc ++ [u.getD ""] else acc) []

/-- The record construction of getPubMedMetadata, given the parsed
first PubmedArticle element. -/
def extractRecord (pmid : String) (article : PubmedArticleNode) : Option ArticleRecord :=
  match article.medlineCitation with
  | none => none
  | some medlineCitation =>
      some {
        pmid := pmid
        title := jsOr (medlineCitation.article.bind ArticleNode.articleTitle) "No title available"
        authors := extractAuthors (medlineCitation.article.bind ArticleNode.authorList)
        journal := jsOr (medlineCitation.article.bind ArticleNode.journalTitle) "Unknown journal"
        publication_date := extractPublicationDate (medlineCitation.article.bind ArticleNode.pubDate)
        abstract := extractAbstract (medlineCitation.article.bind ArticleNode.abstractTexts)
        doi := findFirstIdOfType (article.pubmedData.bind PubmedDataNode.articleIds) "doi"
        pmcid := findFirstIdOfType (article.pubmedData.bind PubmedDataNode.articleIds) "pmc"
        keywords := extractKeywords medlineCitation.keywordList
        mesh_terms := extractMeshTerms medlineCitation.meshDescriptors
        url := "https://pubmed.ncbi.nlm.nih.gov/" ++ pmid ++ "/" }

/-- getPubMedMetadata from pubmed-search.js: one efetch call, then the
record extraction; any failure yields null. -/
def getPubMedMetadata (env : Env) (pmid : String) : Option ArticleRecord :=
  match env.efetch (efetchUrl pmid) with
  | none => none
  | some article => extractRecord pmid article

/-- The per-identifier fetch loop shared by both search flows: fetch
each identifier in order, keeping only the parsable records. -/
def fetchArticles (env : Env) (pmids : List String) : List ArticleRecord :=
  match pmids with
  | [] => []
  | pmid :: rest =>
      match getPubMedMetadata env pmid with
      | some metadata => metadata :: fetchArticles env rest
      | none => fetchArticles env rest

/-- The fetch calls issued by the per-identifier loop, in order. -/
def fetchCalls (pmids : List String) : List NetCall :=
  pmids.map (fun pmid => NetCall.get (efetchUrl pmid))

/-- searchKeywords from pubmed-search.js, paired with its network
trace. -/
def searchKeywords (env : Env) (keywords : String) (numResults : Int) :
    List ArticleRecord × List NetCall :=
  let searchUrl := generatePubMedSearchUrl keywords numResults
  let pmids := searchPubMed env searchUrl
  (fetchArticles env pmids, NetCall.get searchUrl :: fetchCalls pmids)

/-- The optional filter fields and result bound received by
searchAdvanced. -/
structure AdvancedParams where
  term : Option String
  title : Option String
  author : Option String
  journal : Option String
  start_date : Option String
  end_date : Option String
  num_results : Option Int
deriving DecidableEq

/-- The clause pushes of searchAdvanced, in source order: term, title,
author, journal, then the date-range clause with its open bounds. -/
def buildAdvancedTerms (p : AdvancedParams) : List String :=
  (if optTruthy p.term then [p.term.getD ""] else []) ++
  (if optTruthy p.title then [(p.title.getD "") ++ "[Title]"] else []) ++
  (if optTruthy p.author then [(p.author.getD "") ++ "[Author]"] else []) ++
  (if optTruthy p.journal then [(p.journal.getD "") ++ "[Journal]"] else []) ++
  (if optTruthy p.start_date && optTruthy p.end_date then
    [(p.start_date.getD "") ++ ":" ++ (p.end_date.getD "") ++ "[Date - Publication]"]
  else if optTruthy p.start_date then
    [(p.start_date.getD "") ++ ":3000[Date - Publication]"]
  else if optTruthy p.end_date then
    ["1800:" ++ (p.end_date.getD "") ++ "[Date - Publication]"]
  else [])

/-- The composed advanced query string: the clauses joined with AND. -/
def advancedSearchTerm (p : AdvancedParams) : String :=
  String.intercalate " AND " (buildAdvancedTerms p)

/-- searchAdvanced from pubmed-search.js, paired with its network
trace: an empty composed query throws before any network call. -/
def searchAdvanced (env : Env) (p : AdvancedParams) :
    Except String (List ArticleRecord) × List NetCall :=
  let searchTerm := advancedSearchTerm p
  if searchTerm = "" then
    (Except.error "At least one search parameter is required", [])
  else
    let searchUrl := generatePubMedSearchUrl searchTerm (jsOrInt p.num_results 10)
    let pmids := searchPubMed env searchUrl
    (Except.ok (fetchArticles env pmids), NetCall.get searchUrl :: fetchCalls pmids)

instance {ε α : Type} [DecidableEq ε] [DecidableEq α] : DecidableEq (Except ε α) := fun x y =>
  match x, y with
  | Except.ok a, Except.ok b =>
      if h : a = b then isTrue (by rw [h]) else isFalse (by intro he; cases he; exact h rfl)
  | Except.ok _, Except.error _ => isFalse (by intro he; cases he)
  | Except.error _, Except.ok _ => isFalse (by intro he; cases he)
  | Except.error e, Except.error f =>
      if h : e = f then isTrue (by rw [h]) else isFalse (by intro he; cases he; exact h rfl)

/-- A pmid argument, which the tool schema allows as a string or an
integer. -/
inductive PmidInput where
  | str (s : String)
  | int (n : Int)
deriving DecidableEq

/-- The pmid normalization shared by getArticleMetadata and
downloadFullTextPdf: numbers become their decimal string. -/
def normalizePmid (p : PmidInput) : String :=
  match p with
  | PmidInput.str s => s
  | PmidInput.int n => toString n

/-- getArticleMetadata from pubmed-search.js, paired with its network
trace. -/
def getArticleMetadata (env : Env) (pmid : PmidInput) :
    Option ArticleRecord × List NetCall :=
  let pmidStr := normalizePmid pmid
  (getPubMedMetadata env pmidStr, [NetCall.get (efetchUrl pmidStr)])

/-- The result object of downloadFullTextPdf: the pdf link key is
present only in the PMC branch. -/
structure PdfResult where
  pdf_url : Option String
  message : String
deriving DecidableEq

/-- downloadFullTextPdf from pubmed-search.js, paired with its network
trace. -/
def downloadFullTextPdf (env : Env) (pmid : PmidInput) :
    PdfResult × List NetCall :=
  let pmidStr := normalizePmid pmid
  let metadata := getPubMedMetadata env pmidStr
  let r : PdfResult :=
    match metadata with
    | some m =>
        if m.pmcid ≠ "" then
          { pdf_url := some ("https://www.ncbi.nlm.nih.gov/pmc/articles/" ++ m.pmcid ++ "/pdf/")
            message := "PDF may be available at PMC: " ++ m.pmcid }
        else
          { pdf_url := none
            message := "PDF not directly available for PMID " ++ pmidStr ++ ". Check publisher website." }
    | none =>
        { pdf_url := none
          message := "PDF not directly available for PMID " ++ pmidStr ++ ". Check publisher website." }
  (r, [NetCall.get (efetchUrl pmidStr)])

/-- JavaScript truthiness of a pmid value. -/
def pmidTruthy (p : PmidInput) : Bool :=
  match p with
  | PmidInput.str s => !(s == "")
  | PmidInput.int n => !(n == 0)

/-- JavaScript truthiness of an optional pmid argument. -/
def jsTruthyPmid (o : Option PmidInput) : Bool :=
  match o with
  | none => false
  | some v => pmidTruthy v

/-- The flat argument bag of the pubmed_articles tool (method aside). -/
structure ToolArgs where
  keywords : Option String
  num_results : Option Int
  pmid : Option PmidInput
  term : Option String
  title : Option String
  author : Option String
  journal : Option String
  start_date : Option String
  end_date : Option String
deriving DecidableEq

/-- The advanced-search parameter object assembled by the dispatcher:
the filter fields are spread through, num_results is defaulted to 10
when absent. -/
def advParamsOfArgs (args : ToolArgs) : AdvancedParams :=
  { term := args.term
    title := args.title
    author := args.author
    journal := args.journal
    start_date := args.start_date
    end_date := args.end_date
    num_results := some (args.num_results.getD 10) }

/-- The JSON payload serialized into the single content block of a
tool response. -/
inductive Payload where
  | articles (l : List ArticleRecord)
  | article (a : Option ArticleRecord)
  | pdf (r : PdfResult)
  | error (msg : String)
deriving DecidableEq

/-- The switch body of the CallToolRequestSchema handler: every throw
is an error value, paired with the network trace of the invocation. -/
def dispatchInner (env : Env) (method : String) (args : ToolArgs) :
    Except String Payload × List NetCall :=
  if method = "search_keywords" then
    if optTruthy args.keywords = false then
      (Except.error "keywords parameter is required for search_keywords", [])
    else
      let r := searchKeywords env (args.keywords.getD "") (args.num_results.getD 10)
      (Except.ok (Payload.articles r.1), r.2)
  else if method = "search_advanced" then
    let r := searchAdvanced env (advParamsOfArgs args)
    (match r.1 with
     | Except.ok l => Except.ok (Payload.articles l)
     | Except.error e => Except.error e, r.2)
  else if method = "get_article_metadata" then
    if jsTruthyPmid args.pmid = false then
      (Except.error "pmid parameter is required for get_article_metadata", [])
    else
      let r := getArticleMetadata env (args.pmid.getD (PmidInput.str ""))
      (Except.ok (Payload.article r.1), r.2)
  else if method = "get_article_pdf" then
    if jsTruthyPmid args.pmid = false then
      (Except.error "pmid parameter is required for get_article_pdf", [])
    else
      let r := downloadFullTextPdf env (args.pmid.getD (PmidInput.str ""))
      (Except.ok (Payload.pdf r.1), r.2)
  else
    (Except.error ("Unknown method: " ++ method), [])

/-- The CallToolRequestSchema handler for the pubmed_articles tool: the
try/catch boundary turns every thrown error into an error payload. -/
def dispatchPubmedArticles (env : Env) (method : String) (args : ToolArgs) :
    Payload × List NetCall :=
  let r := dispatchInner env method args
  (match r.1 with
   | Except.ok p => p
   | Except.error msg => Payload.error msg, r.2)

/-! ## Demonstration environment used by the closed witnesses -/

/-- A sample parsed Article element. -/
def demoArticle : ArticleNode :=
  { articleTitle := some "Demo title"
    journalTitle := some "Demo Journal"
    pubDate := some { year := some "2024", month := some "03", day := some "15" }
    authorList := some [{ lastName := some "Smith", foreName := some "John" }]
    abstractTexts := some [XmlNode.text "Background."] }

/-- A sample ArticleId list carrying both a DOI and a PMC id. -/
def demoIds : List ArticleIdNode :=
  [{ idType := some "doi", value := "10.1000/demo" },
   { idType := some "pmc", value := "PMC1234567" }]

/-- A sample ArticleId list with no PMC id. -/
def demoIdsNoPmc : List ArticleIdNode :=
  [{ idType := some "doi", value := "10.1000/demo" }]

/-- A sample parsed PubmedArticle payload. -/
def demoPayload : PubmedArticleNode :=
  { medlineCitation := some
      { article := some demoArticle
        meshDescriptors := some [some "Neoplasms"]
        keywordList := some [XmlNode.text "immunotherapy"] }
    pubmedData := some { articleIds := some demoIds } }

/-- A sample payload whose identifier list has no PMC id. -/
def demoPayloadNoPmc : PubmedArticleNode :=
  { medlineCitation := some
      { article := some demoArticle
        meshDescriptors := none
        keywordList := none }
    pubmedData := some { articleIds := some demoIdsNoPmc } }

/-- A sample upstream service: every search returns identifiers 11, 22
and 33; fetching 22 fails, fetching 44 yields the payload without a
PMC id, and every other fetch yields the full payload. -/
def demoEnv : Env :=
  { esearch := fun _ => some [XmlNode.text "11", XmlNode.text "22", XmlNode.text "33"]
    efetch := fun url =>
      if url = efetchUrl "22" then none
      else if url = efetchUrl "44" then some demoPayloadNoPmc
      else some demoPayload }

/-- The record extracted from demoPayload for a given pmid. -/
def demoRecord (pmid : String) : ArticleRecord :=
  { pmid := pmid
    title := "Demo title"
    authors := ["Smith, John"]
    journal := "Demo Journal"
    publication_date := "2024-03-15"
    abstract := "Background."
    doi := "10.1000/demo"
    pmcid := "PMC1234567"
    keywords := ["immunotherapy"]
    mesh_terms := ["Neoplasms"]
    url := "https://pubmed.ncbi.nlm.nih.gov/" ++ pmid ++ "/" }

/-- An argument bag with every field absent. -/
def emptyArgs : ToolArgs :=
  { keywords := none, num_results := none, pmid := none, term := none,
    title := none, author := none, journal := none, start_date := none,
    end_date := none }

/-! ## Helper lemmas -/

theorem fetchArticles_eq_filterMap (env : Env) (pmids : List String) :
    fetchArticles env pmids = pmids.filterMap (fun pm => getPubMedMetadata env pm) := by
  induction pmids with
  | nil => rfl
  | cons p rest ih =>
      cases h : getPubMedMetadata env p <;>
        simp [fetchArticles, h, List.filterMap_cons, ih]

theorem getPubMedMetadata_fields (env : Env) (pmid : String) (r : ArticleRecord)
    (h : getPubMedMetadata env pmid = some r) :
    r.pmid = pmid ∧ r.url = "https://pubmed.ncbi.nlm.nih.gov/" ++ pmid ++ "/" := by
  cases hfe : env.efetch (efetchUrl pmid) with
  | none => simp [getPubMedMetadata, hfe] at h
  | some article =>
      simp only [getPubMedMetadata, hfe] at h
      cases hmc : article.medlineCitation with
      | none => simp [extractRecord, hmc] at h
      | some mc =>
          simp only [extractRecord, hmc, Option.some.injEq] at h
          rw [← h]
          exact ⟨rfl, rfl⟩

theorem toDigitsCore_ne_nil (b : Nat) :
    ∀ (fuel n : Nat) (ds : List Char), ds ≠ [] ∨ 0 < fuel →
      Nat.toDigitsCore b fuel n ds ≠ [] := by
  intro fuel
  induction fuel with
  | zero =>
      intro n ds h
      cases h with
      | inl h2 => simpa [Nat.toDigitsCore] using h2
      | inr h2 => exact absurd h2 (by omega)
  | succ f ih =>
      intro n ds _
      unfold Nat.toDigitsCore
      dsimp only
      by_cases hz : n / b = 0
      · simp [hz]
      · simp only [hz, if_false]
        exact ih (n / b) _ (Or.inl (by simp))

theorem nat_repr_ne_empty (n : Nat) : Nat.repr n ≠ "" := by
  intro h
  have h2 : (Nat.toDigits 10 n) = [] := by
    have h3 := congrArg String.data h
    simpa [Nat.repr, List.asString] using h3
  exact toDigitsCore_ne_nil 10 (n + 1) n [] (Or.inr (by omega))
    (by simpa [Nat.toDigits] using h2)

theorem int_toString_ne_empty (n : Int) : toString n ≠ "" := by
  cases n with
  | ofNat m =>
      intro h
      exact nat_repr_ne_empty m h
  | negSucc m =>
      intro h
      have h2 := congrArg String.length h
      rw [show toString (Int.negSucc m) = "-" ++ Nat.repr (m + 1) from rfl] at h2
      rw [String.length_append] at h2
      have hl1 : ("-" : String).length = 1 := rfl
      have hl0 : ("" : String).length = 0 := rfl
      rw [hl1, hl0] at h2
      omega

theorem normalizePmid_ne_empty (pm : PmidInput) (h : pmidTruthy pm = true) :
    normalizePmid pm ≠ "" := by
  cases pm with
  | str s =>
      simp only [pmidTruthy, Bool.not_eq_true] at h
      simpa [normalizePmid] using fun he => by simp [he] at h
  | int n => exact int_toString_ne_empty n

theorem dispatchInner_search_keywords (env : Env) (args : ToolArgs) :
    dispatchInner env "search_keywords" args =
      (if optTruthy args.keywords = false then
        (Except.error "keywords parameter is required for search_keywords", [])
      else
        let r := searchKeywords env (args.keywords.getD "") (args.num_results.getD 10)
        (Except.ok (Payload.articles r.1), r.2)) := rfl

theorem dispatchInner_search_advanced (env : Env) (args : ToolArgs) :
    dispatchInner env "search_advanced" args =
      (let r := searchAdvanced env (advParamsOfArgs args)
       (match r.1 with
        | Except.ok l => Except.ok (Payload.articles l)
        | Except.error e => Except.error e, r.2)) := rfl

theorem dispatchInner_get_article_metadata (env : Env) (args : ToolArgs) :
    dispatchInner env "get_article_metadata" args =
      (if jsTruthyPmid args.pmid = false then
        (Except.error "pmid parameter is required for get_article_metadata", [])
      else
        let r := getArticleMetadata env (args.pmid.getD (PmidInput.str ""))
        (Except.ok (Payload.article r.1), r.2)) := rfl

theorem dispatchInner_get_article_pdf (env : Env) (args : ToolArgs) :
    dispatchInner env "get_article_pdf" args =
      (if jsTruthyPmid args.pmid = false then
        (Except.error "pmid parameter is required for get_article_pdf", [])
      else
        let r := downloadFullTextPdf env (args.pmid.getD (PmidInput.str ""))
        (Except.ok (Payload.pdf r.1), r.2)) := rfl

theorem dispatch_of_inner (env : Env) (m : String) (args : ToolArgs)
    (msg : String) (tr : List NetCall)
    (h : dispatchInner env m args = (Except.error msg, tr)) :
    dispatchPubmedArticles env m args = (Payload.error msg, tr) := by
  simp [dispatchPubmedArticles, h]

theorem searchAdvanced_empty (env : Env) (p : AdvancedParams)
    (h : advancedSearchTerm p = "") :
    searchAdvanced env p = (Except.error "At least one search parameter is required", []) := by
  simp [searchAdvanced, h]

/-! ## Claim theorems -/

/-- C3: a search_advanced invocation in which none of term, title,
author, journal, start_date, end_date is set fails with the validation
error surfaced in the uniform error envelope, and performs zero
network calls. -/
theorem search_advanced_no_filters_validation (env : Env) (args : ToolArgs)
    (h1 : args.term = none) (h2 : args.title = none) (h3 : args.author = none)
    (h4 : args.journal = none) (h5 : args.start_date = none) (h6 : args.end_date = none) :
    dispatchPubmedArticles env "search_advanced" args =
      (Payload.error "At least one search parameter is required", []) := by
  have hterm : buildAdvancedTerms (advParamsOfArgs args) = [] := by
    simp [buildAdvancedTerms, advParamsOfArgs, optTruthy, h1, h2, h3, h4, h5, h6]
  have hstr : advancedSearchTerm (advParamsOfArgs args) = "" := by
    rw [advancedSearchTerm, hterm]; rfl
  apply dispatch_of_inner
  rw [dispatchInner_search_advanced, searchAdvanced_empty env _ hstr]

/-- Witness for C3 at a concrete environment and an empty argument
bag. -/
theorem search_advanced_no_filters_validation_witness :
    emptyArgs.term = none ∧ emptyArgs.title = none ∧ emptyArgs.author = none ∧
    emptyArgs.journal = none ∧ emptyArgs.start_date = none ∧ emptyArgs.end_date = none ∧
    dispatchPubmedArticles demoEnv "search_advanced" emptyArgs =
      (Payload.error "At least one search parameter is required", []) :=
  ⟨rfl, rfl, rfl, rfl, rfl, rfl,
   search_advanced_no_filters_validation demoEnv emptyArgs rfl rfl rfl rfl rfl rfl⟩

/-- C9: an integer pmid and its decimal string form produce identical
upstream fetch requests and identical results, for both
get_article_metadata and get_article_pdf; the single fetch request is
the efetch URL of the decimal string. -/
theorem pmid_integer_string_equivalent (env : Env) (n : Int) :
    getArticleMetadata env (PmidInput.int n) =
      getArticleMetadata env (PmidInput.str (toString n))
    ∧ downloadFullTextPdf env (PmidInput.int n) =
      downloadFullTextPdf env (PmidInput.str (toString n))
    ∧ (getArticleMetadata env (PmidInput.int n)).2 = [NetCall.get (efetchUrl (toString n))]
    ∧ (downloadFullTextPdf env (PmidInput.int n)).2 = [NetCall.get (efetchUrl (toString n))] :=
  ⟨rfl, rfl, rfl, rfl⟩

/-- C10: required fields are checked by truthiness, so a present but
falsy required field (empty keywords, empty string pmid, integer zero
pmid) is rejected with the corresponding validation message before any
network call. -/
theorem falsy_required_fields_rejected (env : Env) (argsK argsP argsZ : ToolArgs)
    (hk : argsK.keywords = some "")
    (hp : argsP.pmid = some (PmidInput.str ""))
    (hz : argsZ.pmid = some (PmidInput.int 0)) :
    dispatchPubmedArticles env "search_keywords" argsK =
      (Payload.error "keywords parameter is required for search_keywords", [])
    ∧ dispatchPubmedArticles env "get_article_metadata" argsP =
      (Payload.error "pmid parameter is required for get_article_metadata", [])
    ∧ dispatchPubmedArticles env "get_article_pdf" argsP =
      (Payload.error "pmid parameter is required for get_article_pdf", [])
    ∧ dispatchPubmedArticles env "get_article_metadata" argsZ =
      (Payload.error "pmid parameter is required for get_article_metadata", [])
    ∧ dispatchPubmedArticles env "get_article_pdf" argsZ =
      (Payload.error "pmid parameter is required for get_article_pdf", []) := by
  refine ⟨?_, ?_, ?_, ?_, ?_⟩
  · apply dispatch_of_inner
    rw [dispatchInner_search_keywords, hk]
    rfl
  · apply dispatch_of_inner
    rw [dispatchInner_get_article_metadata, hp]
    rfl
  · apply dispatch_of_inner
    rw [dispatchInner_get_article_pdf, hp]
    rfl
  · apply dispatch_of_inner
    rw [dispatchInner_get_article_metadata, hz]
    rfl
  · apply dispatch_of_inner
    rw [dispatchInner_get_article_pdf, hz]
    rfl

/-- Witness for C10 at concrete argument bags. -/
theorem falsy_required_fields_rejected_witness :
    { emptyArgs with keywords := some "" }.keywords = some ""
    ∧ { emptyArgs with pmid := some (PmidInput.str "") }.pmid = some (PmidInput.str "")
    ∧ { emptyArgs with pmid := some (PmidInput.int 0) }.pmid = some (PmidInput.int 0)
    ∧ dispatchPubmedArticles demoEnv "search_keywords" { emptyArgs with keywords := some "" } =
        (Payload.error "keywords parameter is required for search_keywords", [])
    ∧ dispatchPubmedArticles demoEnv "get_article_metadata" { emptyArgs with pmid := some (PmidInput.str "") } =
        (Payload.error "pmid parameter is required for get_article_metadata", []) :=
  ⟨rfl, rfl, rfl,
   (falsy_required_fields_rejected demoEnv
      { emptyArgs with keywords := some "" }
      { emptyArgs with pmid := some (PmidInput.str "") }
      { emptyArgs with pmid := some (PmidInput.int 0) } rfl rfl rfl).1,
   (falsy_required_fields_rejected demoEnv
      { emptyArgs with keywords := some "" }
      { emptyArgs with pmid := some (PmidInput.str "") }
      { emptyArgs with pmid := some (PmidInput.int 0) } rfl rfl rfl).2.1⟩

theorem dispatchInner_unknown (env : Env) (m : String) (args : ToolArgs)
    (h1 : m ≠ "search_keywords") (h2 : m ≠ "search_advanced")
    (h3 : m ≠ "get_article_metadata") (h4 : m ≠ "get_article_pdf") :
    dispatchInner env m args = (Except.error ("Unknown method: " ++ m), []) := by
  unfold dispatchInner
  rw [if_neg h1, if_neg h2, if_neg h3, if_neg h4]

/-- C1: the dispatcher converts every thrown error into an error
payload: the catch boundary maps any inner error to the uniform error
envelope, an unknown method value yields the unknown-method message,
and the validation failures of each method (missing or falsy required
field, no advanced-search filters) yield their messages. -/
theorem dispatcher_error_envelope (env : Env) (m m2 : String)
    (args args2 argsK argsP argsA : ToolArgs) (msg : String) (tr : List NetCall)
    (h1 : dispatchInner env m args = (Except.error msg, tr))
    (h2a : m2 ≠ "search_keywords") (h2b : m2 ≠ "search_advanced")
    (h2c : m2 ≠ "get_article_metadata") (h2d : m2 ≠ "get_article_pdf")
    (h3 : optTruthy argsK.keywords = false)
    (h4 : jsTruthyPmid argsP.pmid = false)
    (h5a : optTruthy argsA.term = false) (h5b : optTruthy argsA.title = false)
    (h5c : optTruthy argsA.author = false) (h5d : optTruthy argsA.journal = false)
    (h5e : optTruthy argsA.start_date = false) (h5f : optTruthy argsA.end_date = false) :
    dispatchPubmedArticles env m args = (Payload.error msg, tr)
    ∧ dispatchPubmedArticles env m2 args2 = (Payload.error ("Unknown method: " ++ m2), [])
    ∧ dispatchPubmedArticles env "search_keywords" argsK =
        (Payload.error "keywords parameter is required for search_keywords", [])
    ∧ dispatchPubmedArticles env "get_article_metadata" argsP =
        (Payload.error "pmid parameter is required for get_article_metadata", [])
    ∧ dispatchPubmedArticles env "get_article_pdf" argsP =
        (Payload.error "pmid parameter is required for get_article_pdf", [])
    ∧ dispatchPubmedArticles env "search_advanced" argsA =
        (Payload.error "At least one search parameter is required", []) := by
  refine ⟨dispatch_of_inner env m args msg tr h1, ?_, ?_, ?_, ?_, ?_⟩
  · exact dispatch_of_inner env m2 args2 _ _ (dispatchInner_unknown env m2 args2 h2a h2b h2c h2d)
  · apply dispatch_of_inner
    rw [dispatchInner_search_keywords, h3]
    rfl
  · apply dispatch_of_inner
    rw [dispatchInner_get_article_metadata, h4]
    rfl
  · apply dispatch_of_inner
    rw [dispatchInner_get_article_pdf, h4]
    rfl
  · have hterm : buildAdvancedTerms (advParamsOfArgs argsA) = [] := by
      simp [buildAdvancedTerms, advParamsOfArgs, h5a, h5b, h5c, h5d, h5e, h5f]
    have hstr : advancedSearchTerm (advParamsOfArgs argsA) = "" := by
      rw [advancedSearchTerm, hterm]; rfl
    apply dispatch_of_inner
    rw [dispatchInner_search_advanced, searchAdvanced_empty env _ hstr]

/-- Witness for C1 at concrete methods and argument bags. -/
theorem dispatcher_error_envelope_witness :
    dispatchInner demoEnv "nope" emptyArgs = (Except.error "Unknown method: nope", [])
    ∧ dispatchPubmedArticles demoEnv "nope" emptyArgs =
        (Payload.error "Unknown method: nope", [])
    ∧ dispatchPubmedArticles demoEnv "frobnicate" emptyArgs =
        (Payload.error "Unknown method: frobnicate", [])
    ∧ dispatchPubmedArticles demoEnv "search_keywords" emptyArgs =
        (Payload.error "keywords parameter is required for search_keywords", [])
    ∧ dispatchPubmedArticles demoEnv "get_article_metadata" emptyArgs =
        (Payload.error "pmid parameter is required for get_article_metadata", []) :=
  ⟨rfl,
   (dispatcher_error_envelope demoEnv "nope" "frobnicate" emptyArgs emptyArgs emptyArgs
      emptyArgs emptyArgs "Unknown method: nope" [] rfl (by decide) (by decide) (by decide)
      (by decide) rfl rfl rfl rfl rfl rfl rfl rfl).1,
   (dispatcher_error_envelope demoEnv "nope" "frobnicate" emptyArgs emptyArgs emptyArgs
      emptyArgs emptyArgs "Unknown method: nope" [] rfl (by decide) (by decide) (by decide)
      (by decide) rfl rfl rfl rfl rfl rfl rfl rfl).2.1,
   (dispatcher_error_envelope demoEnv "nope" "frobnicate" emptyArgs emptyArgs emptyArgs
      emptyArgs emptyArgs "Unknown method: nope" [] rfl (by decide) (by decide) (by decide)
      (by decide) rfl rfl rfl rfl rfl rfl rfl rfl).2.2.1,
   (dispatcher_error_envelope demoEnv "nope" "frobnicate" emptyArgs emptyArgs emptyArgs
      emptyArgs emptyArgs "Unknown method: nope" [] rfl (by decide) (by decide) (by decide)
      (by decide) rfl rfl rfl rfl rfl rfl rfl rfl).2.2.2.1⟩

/-- Advanced-search filter bag used by the closed witnesses. -/
def demoAdvParams : AdvancedParams :=
  { term := some "cancer", title := none, author := none, journal := none,
    start_date := none, end_date := none, num_results := some 10 }

theorem searchAdvanced_ok (env : Env) (p : AdvancedParams) (l : List ArticleRecord)
    (h : (searchAdvanced env p).1 = Except.ok l) :
    l = fetchArticles env
      (searchPubMed env (generatePubMedSearchUrl (advancedSearchTerm p) (jsOrInt p.num_results 10))) := by
  by_cases he : advancedSearchTerm p = ""
  · rw [searchAdvanced_empty env p he] at h
    cases h
  · simp only [searchAdvanced, if_neg he] at h
    exact (Except.ok.injEq _ _).mp h.symm

/-- C2: each search flow returns exactly the in-order filterMap of the
per-identifier fetches over the identifiers the search call returned;
unparsable fetch results are dropped, so the result length is bounded
by the identifier count, and by num_results whenever the search call
honors the requested bound. -/
theorem search_flow_results (env : Env) (keywords : String) (n : Int)
    (p : AdvancedParams) (l : List ArticleRecord)
    (hk : ((searchPubMed env (generatePubMedSearchUrl keywords n)).length : Int) ≤ n)
    (ha : (searchAdvanced env p).1 = Except.ok l)
    (hb : ((searchPubMed env (generatePubMedSearchUrl (advancedSearchTerm p)
            (jsOrInt p.num_results 10))).length : Int) ≤ jsOrInt p.num_results 10) :
    (searchKeywords env keywords n).1 =
      (searchPubMed env (generatePubMedSearchUrl keywords n)).filterMap
        (fun pm => getPubMedMetadata env pm)
    ∧ (searchKeywords env keywords n).1.length ≤
        (searchPubMed env (generatePubMedSearchUrl keywords n)).length
    ∧ ((searchKeywords env keywords n).1.length : Int) ≤ n
    ∧ l = (searchPubMed env (generatePubMedSearchUrl (advancedSearchTerm p)
            (jsOrInt p.num_results 10))).filterMap (fun pm => getPubMedMetadata env pm)
    ∧ l.length ≤ (searchPubMed env (generatePubMedSearchUrl (advancedSearchTerm p)
            (jsOrInt p.num_results 10))).length
    ∧ (l.length : Int) ≤ jsOrInt p.num_results 10 := by
  have e1 : (searchKeywords env keywords n).1 =
      (searchPubMed env (generatePubMedSearchUrl keywords n)).filterMap
        (fun pm => getPubMedMetadata env pm) :=
    fetchArticles_eq_filterMap env _
  have e2 : l = (searchPubMed env (generatePubMedSearchUrl (advancedSearchTerm p)
      (jsOrInt p.num_results 10))).filterMap (fun pm => getPubMedMetadata env pm) := by
    rw [searchAdvanced_ok env p l ha]
    exact fetchArticles_eq_filterMap env _
  have len1 : (searchKeywords env keywords n).1.length ≤
      (searchPubMed env (generatePubMedSearchUrl keywords n)).length := by
    rw [e1]
    exact List.length_filterMap_le _ _
  have len2 : l.length ≤ (searchPubMed env (generatePubMedSearchUrl (advancedSearchTerm p)
      (jsOrInt p.num_results 10))).length := by
    rw [e2]
    exact List.length_filterMap_le _ _
  refine ⟨e1, len1, le_trans (by exact_mod_cast len1) hk, e2, len2,
    le_trans (by exact_mod_cast len2) hb⟩

/-- Witness for C2 at a concrete environment: three identifiers come
back, the fetch of the second fails, and both flows return the two
parsable records. -/
theorem search_flow_results_witness :
    (searchAdvanced demoEnv demoAdvParams).1 = Except.ok [demoRecord "11", demoRecord "33"]
    ∧ (searchKeywords demoEnv "x" 10).1 =
        (searchPubMed demoEnv (generatePubMedSearchUrl "x" 10)).filterMap
          (fun pm => getPubMedMetadata demoEnv pm)
    ∧ ((searchKeywords demoEnv "x" 10).1.length : Int) ≤ 10
    ∧ (([demoRecord "11", demoRecord "33"] : List ArticleRecord).length : Int) ≤
        jsOrInt demoAdvParams.num_results 10 :=
  ⟨by decide,
   (search_flow_results demoEnv "x" 10 demoAdvParams [demoRecord "11", demoRecord "33"]
      (by decide) (by decide) (by decide)).1,
   (search_flow_results demoEnv "x" 10 demoAdvParams [demoRecord "11", demoRecord "33"]
      (by decide) (by decide) (by decide)).2.2.1,
   (search_flow_results demoEnv "x" 10 demoAdvParams [demoRecord "11", demoRecord "33"]
      (by decide) (by decide) (by decide)).2.2.2.2.2⟩

/-- The advanced-search clause list as the specification words it:
only the present fields are joined, in the fixed order term, title,
author, journal, date range, with the field tags and the open date
bounds 1800 and 3000. -/
def specAdvancedClauses (p : AdvancedParams) : List String :=
  (if optTruthy p.term then [p.term.getD ""] else []) ++
  (if optTruthy p.title then [(p.title.getD "") ++ "[Title]"] else []) ++
  (if optTruthy p.author then [(p.author.getD "") ++ "[Author]"] else []) ++
  (if optTruthy p.journal then [(p.journal.getD "") ++ "[Journal]"] else []) ++
  (if optTruthy p.start_date then
    (if optTruthy p.end_date then
      [(p.start_date.getD "") ++ ":" ++ (p.end_date.getD "") ++ "[Date - Publication]"]
    else
      [(p.start_date.getD "") ++ ":3000[Date - Publication]"])
  else if optTruthy p.end_date then
    ["1800:" ++ (p.end_date.getD "") ++ "[Date - Publication]"]
  else [])

/-- C4: with at least one filter set, the composed query string is the
AND-join of exactly the present clauses in the fixed order, with the
date clause open bounds substituted; the two dates-only examples of
the specification are included as closed instances. -/
theorem advanced_query_composition (p : AdvancedParams)
    (h : (optTruthy p.term || optTruthy p.title || optTruthy p.author ||
          optTruthy p.journal || optTruthy p.start_date || optTruthy p.end_date) = true) :
    advancedSearchTerm p = String.intercalate " AND " (specAdvancedClauses p)
    ∧ advancedSearchTerm
        { term := none, title := none, author := none, journal := none,
          start_date := some "2023/01/01", end_date := none, num_results := none } =
        "2023/01/01:3000[Date - Publication]"
    ∧ advancedSearchTerm
        { term := none, title := none, author := none, journal := none,
          start_date := none, end_date := some "2024/12/31", num_results := none } =
        "1800:2024/12/31[Date - Publication]" := by
  refine ⟨?_, by decide, by decide⟩
  have hbt : buildAdvancedTerms p = specAdvancedClauses p := by
    unfold buildAdvancedTerms specAdvancedClauses
    cases hs : optTruthy p.start_date <;> cases he : optTruthy p.end_date <;> simp [hs, he]
  rw [advancedSearchTerm, hbt]

/-- Witness for C4 at a dates-only filter bag. -/
theorem advanced_query_composition_witness :
    (optTruthy (some "2023/01/01") || optTruthy (none : Option String)) = true
    ∧ advancedSearchTerm
        { term := some "covid", title := none, author := none, journal := none,
          start_date := some "2023/01/01", end_date := none, num_results := some 20 } =
      String.intercalate " AND " (specAdvancedClauses
        { term := some "covid", title := none, author := none, journal := none,
          start_date := some "2023/01/01", end_date := none, num_results := some 20 }) :=
  ⟨by decide,
   (advanced_query_composition
      { term := some "covid", title := none, author := none, journal := none,
        start_date := some "2023/01/01", end_date := none, num_results := some 20 }
      (by decide)).1⟩

/-- The record extracted from demoPayloadNoPmc for pmid 44. -/
def demoRecordNoPmc : ArticleRecord :=
  { pmid := "44"
    title := "Demo title"
    authors := ["Smith, John"]
    journal := "Demo Journal"
    publication_date := "2024-03-15"
    abstract := "Background."
    doi := "10.1000/demo"
    pmcid := ""
    keywords := []
    mesh_terms := []
    url := "https://pubmed.ncbi.nlm.nih.gov/44/" }

/-- C5: when the fetched record has a non-empty pmcid, the pdf result
carries the deterministically constructed PMC link and the advisory
message; with an empty pmcid, or no record at all, it carries only the
advisory message and no pdf_url. -/
theorem pdf_resolution (env : Env) (pmA pmB pmC : PmidInput) (mA mB : ArticleRecord)
    (hA : getPubMedMetadata env (normalizePmid pmA) = some mA) (hA2 : mA.pmcid ≠ "")
    (hB : getPubMedMetadata env (normalizePmid pmB) = some mB) (hB2 : mB.pmcid = "")
    (hC : getPubMedMetadata env (normalizePmid pmC) = none) :
    (downloadFullTextPdf env pmA).1 =
      { pdf_url := some ("https://www.ncbi.nlm.nih.gov/pmc/articles/" ++ mA.pmcid ++ "/pdf/")
        message := "PDF may be available at PMC: " ++ mA.pmcid }
    ∧ (downloadFullTextPdf env pmB).1 =
      { pdf_url := none
        message := "PDF not directly available for PMID " ++ normalizePmid pmB ++ ". Check publisher website." }
    ∧ (downloadFullTextPdf env pmC).1 =
      { pdf_url := none
        message := "PDF not directly available for PMID " ++ normalizePmid pmC ++ ". Check publisher website." } := by
  refine ⟨?_, ?_, ?_⟩
  · simp [downloadFullTextPdf, hA, hA2]
  · simp [downloadFullTextPdf, hB, hB2]
  · simp [downloadFullTextPdf, hC]

/-- Witness for C5 at three concrete pmids: one with a PMC id, one
without, one whose fetch fails. -/
theorem pdf_resolution_witness :
    getPubMedMetadata demoEnv (normalizePmid (PmidInput.str "11")) = some (demoRecord "11")
    ∧ getPubMedMetadata demoEnv (normalizePmid (PmidInput.str "44")) = some demoRecordNoPmc
    ∧ getPubMedMetadata demoEnv (normalizePmid (PmidInput.str "22")) = none
    ∧ (downloadFullTextPdf demoEnv (PmidInput.str "11")).1 =
        { pdf_url := some ("https://www.ncbi.nlm.nih.gov/pmc/articles/" ++ (demoRecord "11").pmcid ++ "/pdf/")
          message := "PDF may be available at PMC: " ++ (demoRecord "11").pmcid }
    ∧ (downloadFullTextPdf demoEnv (PmidInput.str "44")).1 =
        { pdf_url := none
          message := "PDF not directly available for PMID " ++ normalizePmid (PmidInput.str "44") ++ ". Check publisher website." } :=
  ⟨by decide, by decide, by decide,
   (pdf_resolution demoEnv (PmidInput.str "11") (PmidInput.str "44") (PmidInput.str "22")
      (demoRecord "11") demoRecordNoPmc (by decide) (by decide) (by decide) (by decide)
      (by decide)).1,
   (pdf_resolution demoEnv (PmidInput.str "11") (PmidInput.str "44") (PmidInput.str "22")
      (demoRecord "11") demoRecordNoPmc (by decide) (by decide) (by decide) (by decide)
      (by decide)).2.1⟩

/-- C6: every record produced by any flow carries a url equal to the
pubmed base followed by its own pmid; the pmid is non-empty whenever
the identifier it came from is, which the dispatcher guarantees for
the single-article flows and the upstream identifier contract
guarantees for the search flows. -/
theorem article_record_invariant (env : Env) (pmid : String) (r : ArticleRecord)
    (k : String) (n : Int) (s : ArticleRecord) (p : AdvancedParams)
    (l : List ArticleRecord) (t : ArticleRecord) (pm : PmidInput) (u : ArticleRecord)
    (hpmid : pmid ≠ "")
    (hr : getPubMedMetadata env pmid = some r)
    (hs : s ∈ (searchKeywords env k n).1)
    (hq : ∀ q ∈ searchPubMed env (generatePubMedSearchUrl k n), q ≠ "")
    (hl : (searchAdvanced env p).1 = Except.ok l)
    (ht : t ∈ l)
    (hqa : ∀ q ∈ searchPubMed env (generatePubMedSearchUrl (advancedSearchTerm p)
            (jsOrInt p.num_results 10)), q ≠ "")
    (hpm : pmidTruthy pm = true)
    (hu : (getArticleMetadata env pm).1 = some u) :
    (r.pmid ≠ "" ∧ r.url = "https://pubmed.ncbi.nlm.nih.gov/" ++ r.pmid ++ "/")
    ∧ (s.pmid ≠ "" ∧ s.url = "https://pubmed.ncbi.nlm.nih.gov/" ++ s.pmid ++ "/")
    ∧ (t.pmid ≠ "" ∧ t.url = "https://pubmed.ncbi.nlm.nih.gov/" ++ t.pmid ++ "/")
    ∧ (u.pmid ≠ "" ∧ u.url = "https://pubmed.ncbi.nlm.nih.gov/" ++ u.pmid ++ "/") := by
  refine ⟨?_, ?_, ?_, ?_⟩
  · obtain ⟨e1, e2⟩ := getPubMedMetadata_fields env pmid r hr
    rw [e1]
    exact ⟨hpmid, e2⟩
  · have hs2 : s ∈ fetchArticles env (searchPubMed env (generatePubMedSearchUrl k n)) := hs
    rw [fetchArticles_eq_filterMap] at hs2
    obtain ⟨q, hqm, hfq⟩ := List.mem_filterMap.mp hs2
    obtain ⟨e1, e2⟩ := getPubMedMetadata_fields env q s hfq
    rw [e1]
    exact ⟨hq q hqm, e2⟩
  · rw [searchAdvanced_ok env p l hl, fetchArticles_eq_filterMap] at ht
    obtain ⟨q, hqm, hfq⟩ := List.mem_filterMap.mp ht
    obtain ⟨e1, e2⟩ := getPubMedMetadata_fields env q t hfq
    rw [e1]
    exact ⟨hqa q hqm, e2⟩
  · obtain ⟨e1, e2⟩ := getPubMedMetadata_fields env (normalizePmid pm) u hu
    rw [e1]
    exact ⟨normalizePmid_ne_empty pm hpm, e2⟩

/-- Witness for C6 across all four flows in the concrete
environment. -/
theorem article_record_invariant_witness :
    (demoRecord "11").url = "https://pubmed.ncbi.nlm.nih.gov/" ++ (demoRecord "11").pmid ++ "/"
    ∧ (demoRecord "33").pmid ≠ ""
    ∧ (demoRecord "33").url = "https://pubmed.ncbi.nlm.nih.gov/" ++ (demoRecord "33").pmid ++ "/" :=
  ⟨(article_record_invariant demoEnv "11" (demoRecord "11") "x" 10 (demoRecord "11")
      demoAdvParams [demoRecord "11", demoRecord "33"] (demoRecord "33")
      (PmidInput.int 11) (demoRecord "11") (by decide) (by decide) (by decide) (by decide)
      (by decide) (by decide) (by decide) (by decide) (by decide)).1.2,
   (article_record_invariant demoEnv "11" (demoRecord "11") "x" 10 (demoRecord "11")
      demoAdvParams [demoRecord "11", demoRecord "33"] (demoRecord "33")
      (PmidInput.int 11) (demoRecord "11") (by decide) (by decide) (by decide) (by decide)
      (by decide) (by decide) (by decide) (by decide) (by decide)).2.2.1.1,
   (article_record_invariant demoEnv "11" (demoRecord "11") "x" 10 (demoRecord "11")
      demoAdvParams [demoRecord "11", demoRecord "33"] (demoRecord "33")
      (PmidInput.int 11) (demoRecord "11") (by decide) (by decide) (by decide) (by decide)
      (by decide) (by decide) (by decide) (by decide) (by decide)).2.2.1.2⟩

/-- The publication-date format as amended: the dash-join of the truthy
components; the sentinel appears exactly when the PubDate element is
absent or falsy, and a present PubDate whose three components are all
absent yields the empty string. -/
def specPublicationDate (pd : Option PubDateNode) : String :=
  match pd with
  | none => "Unknown date"
  | some d =>
      let comps := [jsOr d.year "", jsOr d.month "", jsOr d.day ""].filter (fun s => s ≠ "")
      if comps = [] then "" else String.intercalate "-" comps

theorem extractPublicationDate_eq_spec (pd : Option PubDateNode) :
    extractPublicationDate pd = specPublicationDate pd := by
  cases pd with
  | none => rfl
  | some d =>
      simp only [extractPublicationDate, specPublicationDate]
      by_cases hc : [jsOr d.year "", jsOr d.month "", jsOr d.day ""].filter (fun s => s ≠ "") = []
      · rw [hc, if_pos rfl]
        rfl
      · rw [if_neg hc]

/-- C7 counterexample: a present PubDate element with no Year, Month or
Day (as happens for MedlineDate-only dates) yields the empty string,
not the unknown-date sentinel the claim requires whenever all three
components are absent. -/
theorem publication_date_sentinel_counterexample :
    extractPublicationDate (some { year := none, month := none, day := none }) = ""
    ∧ extractPublicationDate (some { year := none, month := none, day := none }) ≠ "unknown date"
    ∧ extractPublicationDate (some { year := none, month := none, day := none }) ≠ "Unknown date" := by
  decide

/-- C7 amended: the publication_date of every extracted record is the
dash-join of exactly the truthy components among year, month, day; it
is the sentinel (spelled Unknown date) exactly when the PubDate
element itself is absent or falsy, and the empty string when PubDate
is present but all three components are absent. -/
theorem publication_date_amended (pmid : String) (a : PubmedArticleNode) (r : ArticleRecord)
    (h : extractRecord pmid a = some r) :
    r.publication_date =
      specPublicationDate (a.medlineCitation.bind (fun mc => mc.article.bind ArticleNode.pubDate)) := by
  cases hmc : a.medlineCitation with
  | none => simp [extractRecord, hmc] at h
  | some mc =>
      simp only [extractRecord, hmc, Option.some.injEq] at h
      rw [← h]
      simp only [Option.some_bind]
      exact extractPublicationDate_eq_spec (mc.article.bind ArticleNode.pubDate)

/-- Witness for the amended C7 at a concrete payload. -/
theorem publication_date_amended_witness :
    extractRecord "11" demoPayload = some (demoRecord "11")
    ∧ (demoRecord "11").publication_date =
        specPublicationDate (demoPayload.medlineCitation.bind
          (fun mc => mc.article.bind ArticleNode.pubDate)) :=
  ⟨by decide, publication_date_amended "11" demoPayload (demoRecord "11") (by decide)⟩

/-- The author formatting as amended: entries only for truthy last
names; with a truthy given name the entry is the trimmed
`last ++ ", " ++ fore`, and with an absent or empty given name it is
the trimmed `last ++ ", "`, keeping the comma and dropping only the
trailing space. -/
def specAuthorEntries (al : Option (List AuthorNode)) : List String :=
  match al with
  | none => []
  | some l =>
      l.foldl (fun acc a =>
        let lastName := jsOr a.lastName ""
        let foreName := jsOr a.foreName ""
        if lastName ≠ "" then
          acc ++ [if foreName ≠ "" then jsTrim (lastName ++ ", " ++ foreName)
                  else jsTrim (lastName ++ ", ")]
        else acc) []

/-- C8 counterexample: a present last name with an absent given name
produces the entry Smith-comma, not Smith with the comma removed as
the claim words it. -/
theorem author_format_counterexample :
    extractAuthors (some [{ lastName := some "Smith", foreName := none }]) = ["Smith,"]
    ∧ extractAuthors (some [{ lastName := some "Smith", foreName := none }]) ≠ ["Smith"] := by
  decide

/-- C8 amended: author entries are produced only for truthy last
names, formatted as the trimmed `last ++ ", " ++ fore`; when the given
name is absent this is the trimmed `last ++ ", "`, so only the
trailing space is removed and the comma remains. -/
theorem author_format_amended (al : Option (List AuthorNode)) :
    extractAuthors al = specAuthorEntries al
    ∧ extractAuthors (some [{ lastName := some "Smith", foreName := none }]) = ["Smith,"] := by
  refine ⟨?_, by decide⟩
  cases al with
  | none => rfl
  | some l =>
      simp only [extractAuthors, specAuthorEntries]
      apply List.foldl_ext
      intro acc a _
      dsimp only
      by_cases hl : jsOr a.lastName "" ≠ ""
      · rw [if_pos hl, if_pos hl]
        by_cases hf : jsOr a.foreName "" ≠ ""
        · rw [if_pos hf]
        · rw [if_neg hf]
          have hfe : jsOr a.foreName "" = "" := not_ne_iff.mp hf
          rw [hfe, String.append_empty]
      · rw [if_neg hl, if_neg hl]
